import Mathlib

/-!
Shallow embedding of the HTTP/3 upstream state machine of
src/shrpx_http3_upstream.cc (class Http3Upstream), together with theorems
checking the specification claims about it.

External library calls (ngtcp2, nghttp3, libev, the downstream layer) are
modelled as emitted actions or as boolean/integer parameters carrying their
results, so that each embedded function is a pure function of its inputs.
-/

/-- NGHTTP3_H3_NO_ERROR application error code (0x100). -/
def NGHTTP3_H3_NO_ERROR : Nat := 0x100

/-- NGHTTP3_H3_GENERAL_PROTOCOL_ERROR application error code (0x101). -/
def NGHTTP3_H3_GENERAL_PROTOCOL_ERROR : Nat := 0x101

/-- NGHTTP3_H3_INTERNAL_ERROR application error code (0x102). -/
def NGHTTP3_H3_INTERNAL_ERROR : Nat := 0x102

/-- NGTCP2_MAX_UDP_PAYLOAD_SIZE, the QUIC default max UDP payload (1200). -/
def NGTCP2_MAX_UDP_PAYLOAD_SIZE : Nat := 1200

/-- errno EINVAL. -/
def EINVAL : Int := 22

/-- errno EMSGSIZE. -/
def EMSGSIZE : Int := 90

/-! ## Response ring buffer (claim C1)

Http3Upstream::acked_stream_data_offset (lines 365-379) forwards each
QUIC-level ack to nghttp3_conn_add_ack_offset; the nghttp3 ack callback
lands in Http3Upstream::http_acked_stream_data (lines 1922-1940), which
drains the response ring buffer and resumes downstream reads. -/

/-- The response ring buffer, abstracted to byte counts.  marked is the
number of bytes at the front that have been handed to the transport but
not yet acknowledged (before the mark); rest is the number of appended
bytes not yet handed out. -/
structure RingBuf where
  marked : Nat
  rest : Nat
deriving Repr, DecidableEq

/-- Modelled from the spec: DefaultMemchunks::drain_mark (memchunk.h, which
is not part of src/) drains up to n bytes of the marked, sent-but-unacked
front region of the response ring buffer and returns how many bytes were
actually removed.  Per the spec, acks drain the ring buffer strictly in
offset order. -/
def RingBuf.drain_mark (b : RingBuf) (n : Nat) : Nat × RingBuf :=
  let d := min n b.marked
  (d, { b with marked := b.marked - d })

/-- Calls that Http3Upstream::acked_stream_data_offset and
Http3Upstream::http_acked_stream_data make into other layers. -/
inductive AckAction where
  | addAckOffset (stream_id : Int) (datalen : Nat)
  | resumeRead (datalen : Nat)
deriving Repr, DecidableEq

/-- Http3Upstream::acked_stream_data_offset (lines 365-379).  httpconn
records whether httpconn_ is non-null; add_ack_rv is the return value of
nghttp3_conn_add_ack_offset.  Returns the calls made and the int result. -/
def acked_stream_data_offset (httpconn : Bool) (stream_id : Int)
    (datalen : Nat) (add_ack_rv : Int) : List AckAction × Int :=
  if !httpconn then
    ([], 0)
  else if add_ack_rv != 0 then
    ([AckAction.addAckOffset stream_id datalen], -1)
  else
    ([AckAction.addAckOffset stream_id datalen], 0)

/-- Http3Upstream::http_acked_stream_data (lines 1922-1940).  body is the
response ring buffer of the attached Downstream; resume_rv is the return
value of Downstream::resume_read.  Returns the updated buffer, the number
of bytes drain_mark removed, the calls made, and the int result. -/
def http_acked_stream_data (body : RingBuf) (datalen : Nat)
    (resume_rv : Int) : RingBuf × Nat × List AckAction × Int :=
  let p := body.drain_mark datalen
  (p.2, p.1, [AckAction.resumeRead datalen],
    if resume_rv != 0 then -1 else 0)

/-! ## Request header bounds (claim C2)

Http3Upstream::http_recv_request_header (lines 1998-2053) checks the two
header bounds; Http3Upstream::error_reply (lines 2558-2604) produces the
431 reply.  The nghttp3 trampolines http_recv_request_header (lines
1957-1975), http_recv_request_trailer (lines 1978-1996) and
http_end_request_headers (lines 2056-2074) guard on stream user data and
Downstream::get_stop_reading. -/

/-- DownstreamState values used by this file (downstream.h is not part of
src/; the constructors mirror the states named in the embedded code). -/
inductive DownstreamState where
  | INITIAL
  | HEADER_COMPLETE
  | MSG_COMPLETE
  | STREAM_CLOSED
  | CONNECT_FAIL
deriving Repr, DecidableEq

/-- The per-request fields of Downstream that the header-bound check reads
and writes: the stop_reading flag, the response state and status, and the
field store sizes.  Modelled from the spec: FieldStore (http2.h, not part
of src/) tracks the total header bytes as buffer_size and the number of
stored fields as num_fields; adding a field grows both. -/
structure DSState where
  stop_reading : Bool
  response_state : DownstreamState
  response_status : Nat
  fs_buffer_size : Nat
  fs_num_fields : Nat
deriving Repr, DecidableEq

/-- The relevant configuration limits (http.request_header_field_buffer
and http.max_request_header_fields). -/
structure HConfig where
  request_header_field_buffer : Nat
  max_request_header_fields : Nat
deriving Repr, DecidableEq

/-- Calls the header path makes into other layers. -/
inductive HdAction where
  | submitResponse (status : Nat)
  | shutdownStreamRead (error_code : Nat)
  | addHeaderField (namelen vallen : Nat)
  | addTrailerField (namelen vallen : Nat)
deriving Repr, DecidableEq

/-- Http3Upstream::error_reply (lines 2558-2604): sets the response status,
appends the error html to the response buffer, marks the response
MSG_COMPLETE, submits the response via nghttp3_conn_submit_response and
shuts down reading of the stream with NGHTTP3_H3_NO_ERROR. -/
def error_reply (d : DSState) (status_code : Nat) : DSState × List HdAction :=
  ({ d with response_state := DownstreamState.MSG_COMPLETE,
            response_status := status_code },
   [HdAction.submitResponse status_code,
    HdAction.shutdownStreamRead NGHTTP3_H3_NO_ERROR])

/-- Http3Upstream::http_recv_request_header (lines 1998-2053), for one
header or trailer field of the given name and value lengths.  Returns the
updated Downstream state, the calls made, and the int result. -/
def http_recv_request_header (cfg : HConfig) (d : DSState)
    (namelen vallen : Nat) (trailer : Bool) :
    DSState × List HdAction × Int :=
  if d.fs_buffer_size + namelen + vallen > cfg.request_header_field_buffer
      ∨ d.fs_num_fields ≥ cfg.max_request_header_fields then
    let d1 := { d with stop_reading := true }
    if d1.response_state = DownstreamState.MSG_COMPLETE then
      (d1, [], 0)
    else if trailer then
      (d1, [], 0)
    else
      let p := error_reply d1 431
      (p.1, p.2, 0)
  else
    let d1 := { d with fs_buffer_size := d.fs_buffer_size + namelen + vallen,
                       fs_num_fields := d.fs_num_fields + 1 }
    if trailer then
      (d1, [HdAction.addTrailerField namelen vallen], 0)
    else
      (d1, [HdAction.addHeaderField namelen vallen], 0)

/-- The guard of the nghttp3 end_request_headers trampoline (lines
2062-2064): the body Http3Upstream::http_end_request_headers, whose final
step is start_downstream, runs only when a Downstream is attached and its
stop_reading flag is clear. -/
def end_request_headers_invokes_body (hasDownstream stop_reading : Bool) :
    Bool :=
  hasDownstream && !stop_reading

/-! ## on_read error dispositions (claim C3)

Http3Upstream::on_read (lines 1662-1745) dispatches on the return value of
ngtcp2_conn_read_pkt. -/

/-- The outcomes of ngtcp2_conn_read_pkt that the switch in on_read
distinguishes: the named ngtcp2 error codes, and other as any error code
not handled by a dedicated case. -/
inductive ReadErr where
  | draining
  | retry
  | dropConn
  | requiredTransportParam
  | malformedTransportParam
  | transportParam
  | other (code : Int)
deriving Repr, DecidableEq

/-- The last_error_ record (quic::Error): a kind plus the stored code.
noneSet is the default state whose code member is 0. -/
inductive LastErr where
  | noneSet
  | transport (e : ReadErr)
  | application (code : Int)
deriving Repr, DecidableEq

/-- The test !last_error_.code used by on_read: true when a nonzero error
code has already been recorded. -/
def LastErr.hasCode : LastErr → Bool
  | LastErr.noneSet => false
  | _ => true

/-- The Upstream state that on_read touches. -/
structure OnReadState where
  last_error : LastErr
  retry_close : Bool
deriving Repr, DecidableEq

/-- Calls on_read makes into other components. -/
inductive ReadAction where
  | sendConnectionClose
  | sendRetry
  | handleError
  | resetIdleTimer
deriving Repr, DecidableEq

/-- Http3Upstream::on_read (lines 1662-1745).  graceful records
Worker::get_graceful_shutdown; decode_ok records whether
ngtcp2_pkt_decode_version_cid succeeded in the retry branch; rv is the
outcome of ngtcp2_conn_read_pkt (none on success).  Returns the updated
state, the calls made, and the int result (handle_error returns -1 here,
as it does whenever the close packet path is taken or skipped). -/
def on_read (graceful decode_ok : Bool) (st : OnReadState)
    (rv : Option ReadErr) : OnReadState × List ReadAction × Int :=
  match rv with
  | none => (st, [ReadAction.resetIdleTimer], 0)
  | some e =>
    match e with
    | ReadErr.draining => (st, [], -1)
    | ReadErr.retry =>
      if !decode_ok then
        (st, [], -1)
      else if graceful then
        (st, [ReadAction.sendConnectionClose], -1)
      else
        ({ st with retry_close := true }, [ReadAction.sendRetry], -1)
    | ReadErr.dropConn => (st, [], -1)
    | ReadErr.requiredTransportParam =>
      ({ st with last_error := LastErr.transport e },
       [ReadAction.handleError], -1)
    | ReadErr.malformedTransportParam =>
      ({ st with last_error := LastErr.transport e },
       [ReadAction.handleError], -1)
    | ReadErr.transportParam =>
      ({ st with last_error := LastErr.transport e },
       [ReadAction.handleError], -1)
    | ReadErr.other _ =>
      (if st.last_error.hasCode then st
       else { st with last_error := LastErr.transport e },
       [ReadAction.handleError], -1)

/-! ## shutdown_stream_read (claim C10) -/

/-- One call to ngtcp2_conn_shutdown_stream_read. -/
structure ShutdownReadCall where
  stream_id : Int
  error_code : Nat
deriving Repr, DecidableEq

/-- Http3Upstream::shutdown_stream_read (lines 2625-2636).  rv_fatal
records whether ngtcp2_err_is_fatal holds of the ngtcp2 return value.
Returns the call made into ngtcp2 and the int result. -/
def shutdown_stream_read (stream_id : Int) (app_error_code : Nat)
    (rv_fatal : Bool) : ShutdownReadCall × Int :=
  ({ stream_id := stream_id, error_code := NGHTTP3_H3_NO_ERROR },
   if rv_fatal then -1 else 0)

/-! ## send_packet (claim C8) -/

/-- The Upstream state touched by Http3Upstream::send_packet: the
per-connection max_udp_payload_size_ field. -/
structure SendState where
  max_udp_payload_size : Nat
deriving Repr, DecidableEq

/-- Http3Upstream::send_packet (lines 1747-1768).  rv is the return value
of quic_send_packet (0 on success, the negated errno on failure).  Returns
the updated state and the int result. -/
def send_packet (st : SendState) (rv : Int) : SendState × Int :=
  if rv = 0 then
    (st, 0)
  else if rv = -EINVAL ∨ rv = -EMSGSIZE then
    ({ st with max_udp_payload_size := NGTCP2_MAX_UDP_PAYLOAD_SIZE }, -1)
  else
    (st, -1)

/-! ## Graceful shutdown (claim C4)

Http3Upstream::check_shutdown (lines 2708-2718) runs from the libev
prepare hook on every loop iteration while the prep watcher is active;
Http3Upstream::start_graceful_shutdown (lines 2720-2743) submits the
shutdown notice and arms the one-shot shutdown timer for 3 PTO;
shutdown_timeout_cb (lines 86-94) calls Http3Upstream::submit_goaway
(lines 2745-2757) when the timer fires. -/

/-- The shutdown-related Upstream state: whether the prep watcher and the
one-shot shutdown timer are active, the armed timeout, and counters for
nghttp3_conn_submit_shutdown_notice and nghttp3_conn_shutdown calls. -/
structure ShutState where
  prep_active : Bool
  timer_armed : Bool
  timer_after : Nat
  notices : Nat
  goaways : Nat
deriving Repr, DecidableEq

/-- Http3Upstream::start_graceful_shutdown (lines 2720-2743): a no-op
while the shutdown timer is armed; otherwise submits one shutdown notice
and arms the timer for 3 PTO (pto in the same dimensionless time unit). -/
def start_graceful_shutdown (pto : Nat) (s : ShutState) : ShutState :=
  if s.timer_armed then s
  else { s with notices := s.notices + 1,
                timer_armed := true,
                timer_after := 3 * pto }

/-- Http3Upstream::check_shutdown (lines 2708-2718): when the worker is in
graceful shutdown, stops the prep watcher and calls
start_graceful_shutdown. -/
def check_shutdown (graceful : Bool) (pto : Nat) (s : ShutState) :
    ShutState :=
  if !graceful then s
  else start_graceful_shutdown pto { s with prep_active := false }

/-- Http3Upstream::submit_goaway (lines 2745-2757): one
nghttp3_conn_shutdown call. -/
def submit_goaway (s : ShutState) : ShutState :=
  { s with goaways := s.goaways + 1 }

/-- Event-loop events relevant to shutdown: a loop iteration (which runs
prepare_cb, lines 97-104, while the prep watcher is active) and the firing
of the one-shot shutdown timer (shutdown_timeout_cb, lines 86-94; libev
deactivates a timer with zero repeat when it fires). -/
inductive ShutEv where
  | loopIter
  | timerFire
deriving Repr, DecidableEq

/-- One event-loop step of the shutdown machinery. -/
def shut_step (graceful : Bool) (pto : Nat) (s : ShutState) :
    ShutEv → ShutState
  | ShutEv.loopIter =>
    if s.prep_active then check_shutdown graceful pto s else s
  | ShutEv.timerFire =>
    if s.timer_armed then submit_goaway { s with timer_armed := false }
    else s

/-- Run of the shutdown machinery over a list of event-loop events. -/
def shut_run (graceful : Bool) (pto : Nat) (s : ShutState)
    (evs : List ShutEv) : ShutState :=
  evs.foldl (shut_step graceful pto) s

/-- The state right after Http3Upstream construction (lines 141-146): prep
watcher started, shutdown timer not armed, no notice or GOAWAY yet. -/
def initShutState : ShutState :=
  { prep_active := true, timer_armed := false, timer_after := 0,
    notices := 0, goaways := 0 }

/-- Invariant of the shutdown machinery under a gracefully shutting down
worker: while the prep watcher is active nothing has been submitted; once
it stops, exactly one notice exists and either the timer is armed for
3 PTO with no GOAWAY yet, or it has fired and exactly one GOAWAY exists. -/
def ShutInv (pto : Nat) (s : ShutState) : Prop :=
  if s.prep_active then
    s.notices = 0 ∧ s.timer_armed = false ∧ s.goaways = 0
  else
    s.notices = 1 ∧
      ((s.timer_armed = true ∧ s.goaways = 0 ∧ s.timer_after = 3 * pto) ∨
        (s.timer_armed = false ∧ s.goaways = 1))

theorem shut_step_inv (pto : Nat) (s : ShutState) (e : ShutEv)
    (h : ShutInv pto s) : ShutInv pto (shut_step true pto s e) := by
  cases e with
  | loopIter =>
    by_cases hp : s.prep_active
    · simp only [ShutInv, hp, if_true] at h
      obtain ⟨hn, ht, hg⟩ := h
      simp [shut_step, hp, check_shutdown, start_graceful_shutdown, ht,
        ShutInv, hn, hg]
    · simp [shut_step, hp, h]
  | timerFire =>
    by_cases ht : s.timer_armed
    · by_cases hp : s.prep_active
      · simp only [ShutInv, hp, if_true] at h
        rw [h.2.1] at ht
        exact absurd ht (by simp)
      · simp only [ShutInv, hp, if_false] at h
        obtain ⟨hn, hrest⟩ := h
        rcases hrest with ⟨-, hg, -⟩ | ⟨harm, -⟩
        · simp [shut_step, ht, submit_goaway, ShutInv, hp, hn, hg]
        · rw [harm] at ht
          exact absurd ht (by simp)
    · simp [shut_step, ht, h]

theorem shut_run_inv (pto : Nat) (evs : List ShutEv) (s : ShutState)
    (h : ShutInv pto s) : ShutInv pto (shut_run true pto s evs) := by
  induction evs generalizing s with
  | nil => exact h
  | cons e evs ih => exact ih _ (shut_step_inv pto s e h)

theorem shut_run_notices (pto : Nat) (evs : List ShutEv) (s : ShutState)
    (h : ShutInv pto s) :
    (shut_run true pto s evs).notices =
      if s.prep_active ∧ evs.contains ShutEv.loopIter then 1
      else s.notices := by
  induction evs generalizing s with
  | nil => simp [shut_run]
  | cons e evs ih =>
    have hstep : shut_run true pto s (e :: evs) =
        shut_run true pto (shut_step true pto s e) evs := rfl
    rw [hstep, ih _ (shut_step_inv pto s e h)]
    cases e with
    | loopIter =>
      by_cases hp : s.prep_active
      · simp only [ShutInv, hp, if_true] at h
        obtain ⟨hn, ht, -⟩ := h
        simp [shut_step, hp, check_shutdown, start_graceful_shutdown, ht,
          hn, List.contains_cons]
      · simp [shut_step, hp, List.contains_cons]
    | timerFire =>
      by_cases ht : s.timer_armed
      · have hp : ¬ s.prep_active := by
          intro hp
          simp only [ShutInv, hp, if_true] at h
          rw [h.2.1] at ht
          exact absurd ht (by simp)
        simp [shut_step, ht, submit_goaway, hp, List.contains_cons]
      · simp [shut_step, ht, List.contains_cons]

/-! ## Response header completion (claim C5)

Http3Upstream::on_downstream_header_complete, final-response section
(lines 1244-1256). -/

/-- The :protocol negotiated for the request (Request::connect_proto). -/
inductive ConnectProto where
  | noProto
  | websocket
deriving Repr, DecidableEq

/-- Modelled from the spec: http3::copy_headers_to_nva_nocopy (missing
from src/) copies the response fields, dropping sec-websocket-accept when
the HDOP_STRIP_SEC_WEBSOCKET_ACCEPT flag is set.  Only that flag dimension
is modelled; headers are reduced to their lowercase names. -/
def copy_headers_strip (strip_swa : Bool) (headers : List String) :
    List String :=
  if strip_swa then headers.filter (fun n => n ≠ "sec-websocket-accept")
  else headers

/-- The final-response section of
Http3Upstream::on_downstream_header_complete (lines 1244-1256): the
submitted :status value and the forwarded response fields. -/
def on_downstream_header_complete_final (connect_proto : ConnectProto)
    (http_status : Nat) (headers : List String) : Nat × List String :=
  if connect_proto = ConnectProto.websocket ∧ http_status = 101 then
    (200, copy_headers_strip true headers)
  else
    (http_status, copy_headers_strip false headers)

/-! ## Request body chunk (claim C6)

Http3Upstream::http_recv_data (lines 2304-2319) and
Http3Upstream::consume (lines 2671-2674). -/

/-- Calls the request-body path makes into other components. -/
inductive DataAction where
  | resetRtimer
  | shutdownStream (error_code : Nat)
  | extendMaxStreamOffset (stream_id : Int) (n : Nat)
  | extendMaxOffset (n : Nat)
deriving Repr, DecidableEq

/-- Http3Upstream::consume (lines 2671-2674): credits the stream-level and
the connection-level QUIC flow-control windows. -/
def consume (stream_id : Int) (nconsumed : Nat) : List DataAction :=
  [DataAction.extendMaxStreamOffset stream_id nconsumed,
   DataAction.extendMaxOffset nconsumed]

/-- Http3Upstream::http_recv_data (lines 2304-2319).  push_rv is the
return value of Downstream::push_upload_data_chunk; response_state is the
response state of the Downstream.  Returns the calls made and the int
result. -/
def http_recv_data (push_rv : Int) (response_state : DownstreamState)
    (stream_id : Int) (datalen : Nat) : List DataAction × Int :=
  if push_rv ≠ 0 then
    ([DataAction.resetRtimer] ++
      (if response_state ≠ DownstreamState.MSG_COMPLETE then
        [DataAction.shutdownStream NGHTTP3_H3_INTERNAL_ERROR]
      else []) ++
      consume stream_id datalen, 0)
  else
    ([DataAction.resetRtimer], 0)

/-! ## Packet burst sizing (claim C7)

The entry of Http3Upstream::write_streams (lines 712-735). -/

/-- Congestion controller selection (ngtcp2_cc_algo). -/
inductive CCAlgo where
  | bbr
  | cubic
  | reno
deriving Repr, DecidableEq

/-- The burst parameters computed at the top of write_streams. -/
structure WriteSetup where
  max_udp_payload_size : Nat
  max_pktcnt : Nat
deriving Repr, DecidableEq

/-- The computation at lines 715-735 of write_streams: the effective max
UDP payload is the minimum of the connection cap (max_udp_payload_size_)
and ngtcp2_conn_get_path_max_udp_payload_size; max_pktcnt is
min(64 KiB, ngtcp2_conn_get_send_quantum) divided by that payload,
further capped at 10 when the congestion controller is not BBR. -/
def write_streams_setup (conn_cap path_max send_quantum : Nat)
    (cc : CCAlgo) : WriteSetup :=
  let payload := min conn_cap path_max
  let n := min 65536 send_quantum / payload
  { max_udp_payload_size := payload,
    max_pktcnt := if cc ≠ CCAlgo.bbr then min n 10 else n }

/-- The packets-per-burst cap as the claim words it: get_send_quantum
divided by the effective max UDP payload size, capped at 10 when the
congestion controller is not BBR. -/
def claimed_max_pktcnt (conn_cap path_max send_quantum : Nat)
    (cc : CCAlgo) : Nat :=
  let payload := min conn_cap path_max
  let n := send_quantum / payload
  if cc ≠ CCAlgo.bbr then min n 10 else n

/-! ## Handshake completion token (claim C9)

Http3Upstream::handshake_completed (lines 480-512). -/

/-- An address-validation token.  Modelled from the spec: tokens are
HMAC-keyed values derived from the peer address and the current
keying-material secret (generate_token lives in shrpx_quic.cc, which is
not part of src/); only the dependence on those two inputs is modelled. -/
structure Token where
  addr : Nat
  secret : Nat
deriving Repr, DecidableEq

/-- Modelled from the spec: generate_token (shrpx_quic.cc, not part of
src/) derives an address-validation token from the peer address and the
current keying-material secret; it can fail, producing no token. -/
def generate_token (gen_fail : Bool) (addr secret : Nat) : Option Token :=
  if gen_fail then none else some { addr := addr, secret := secret }

/-- Http3Upstream::handshake_completed (lines 480-512).  alpn_empty
records whether the negotiated ALPN is empty; gen_fail whether
generate_token fails; submit_ok whether ngtcp2_conn_submit_new_token
succeeds; addr and secret are the peer address and the front
keying-material secret.  Returns the int result and the tokens handed to
ngtcp2_conn_submit_new_token. -/
def handshake_completed (alpn_empty gen_fail submit_ok : Bool)
    (addr secret : Nat) : Int × List Token :=
  if alpn_empty then (-1, [])
  else
    match generate_token gen_fail addr secret with
    | none => (0, [])
    | some t => if submit_ok then (0, [t]) else (-1, [t])

/-! ## Theorems -/

/-- C1: every QUIC-level ack of stream data is forwarded to the HTTP/3
layer via nghttp3_conn_add_ack_offset, and the HTTP/3 ack callback drains
the response ring buffer by exactly the acked byte count (the asserted
equality drained = datalen holds, given that only sent-but-unacked bytes
are ever acked) and then re-enables downstream reads via resume_read. -/
theorem acked_stream_data_forwarded_and_drained
    (stream_id : Int) (datalen : Nat) (add_ack_rv resume_rv : Int)
    (body : RingBuf) (hd : datalen ≤ body.marked) :
    (acked_stream_data_offset true stream_id datalen add_ack_rv).1 =
      [AckAction.addAckOffset stream_id datalen] ∧
    (http_acked_stream_data body datalen resume_rv).2.1 = datalen ∧
    (http_acked_stream_data body datalen resume_rv).1 =
      { body with marked := body.marked - datalen } ∧
    (http_acked_stream_data body datalen resume_rv).2.2.1 =
      [AckAction.resumeRead datalen] := by
  refine ⟨?_, ?_, ?_, rfl⟩
  · by_cases h : add_ack_rv = 0 <;>
      simp [acked_stream_data_offset, h]
  · simp [http_acked_stream_data, RingBuf.drain_mark, Nat.min_eq_left hd]
  · simp [http_acked_stream_data, RingBuf.drain_mark, Nat.min_eq_left hd]

/-- Witness for C1 at a concrete buffer and ack size. -/
theorem acked_stream_data_forwarded_and_drained_witness :
    (4 : Nat) ≤ (RingBuf.mk 9 5).marked ∧
    (http_acked_stream_data (RingBuf.mk 9 5) 4 0).2.1 = 4 := by
  refine ⟨by decide, ?_⟩
  exact (acked_stream_data_forwarded_and_drained 0 4 0 0
    (RingBuf.mk 9 5) (by decide)).2.1

/-- C2: a non-trailer request header field that overflows the header byte
budget or arrives at the field-count cap yields a 431 reply, stops reading
of the stream (so the end-headers body, whose final step is
start_downstream, never runs: no downstream attempt), while an over-limit
trailer field is silently dropped with no reply and no field stored. -/
theorem recv_request_header_bounds (cfg : HConfig) (d : DSState)
    (namelen vallen : Nat)
    (hover : d.fs_buffer_size + namelen + vallen >
        cfg.request_header_field_buffer ∨
      d.fs_num_fields ≥ cfg.max_request_header_fields)
    (hresp : d.response_state ≠ DownstreamState.MSG_COMPLETE) :
    (http_recv_request_header cfg d namelen vallen false).1.stop_reading =
      true ∧
    (http_recv_request_header cfg d namelen vallen false).1.response_state =
      DownstreamState.MSG_COMPLETE ∧
    (http_recv_request_header cfg d namelen vallen false).1.response_status =
      431 ∧
    (http_recv_request_header cfg d namelen vallen false).2.1 =
      [HdAction.submitResponse 431,
       HdAction.shutdownStreamRead NGHTTP3_H3_NO_ERROR] ∧
    end_request_headers_invokes_body true
      (http_recv_request_header cfg d namelen vallen false).1.stop_reading =
      false ∧
    (http_recv_request_header cfg d namelen vallen true).2.1 = [] ∧
    (http_recv_request_header cfg d namelen vallen true).1.fs_buffer_size =
      d.fs_buffer_size ∧
    (http_recv_request_header cfg d namelen vallen true).1.fs_num_fields =
      d.fs_num_fields := by
  have hfalse :
      http_recv_request_header cfg d namelen vallen false =
        ({ d with stop_reading := true,
                  response_state := DownstreamState.MSG_COMPLETE,
                  response_status := 431 },
         [HdAction.submitResponse 431,
          HdAction.shutdownStreamRead NGHTTP3_H3_NO_ERROR], 0) := by
    unfold http_recv_request_header
    rw [if_pos hover]
    simp [error_reply, hresp]
  have htrue :
      http_recv_request_header cfg d namelen vallen true =
        ({ d with stop_reading := true }, [], 0) := by
    unfold http_recv_request_header
    rw [if_pos hover]
    by_cases h : d.response_state = DownstreamState.MSG_COMPLETE <;>
      simp [h]
  rw [hfalse, htrue]
  simp [end_request_headers_invokes_body]

/-- Witness for C2: a field of 2+3 bytes on top of 8 buffered bytes with a
10 byte budget. -/
theorem recv_request_header_bounds_witness :
    ((8 : Nat) + 2 + 3 > 10 ∨ (2 : Nat) ≥ 5) ∧
    (DSState.mk false DownstreamState.INITIAL 0 8 2).response_state ≠
      DownstreamState.MSG_COMPLETE ∧
    (http_recv_request_header ⟨10, 5⟩
      (DSState.mk false DownstreamState.INITIAL 0 8 2) 2 3
      false).1.response_status = 431 := by
  refine ⟨Or.inl (by decide), by decide, ?_⟩
  exact (recv_request_header_bounds ⟨10, 5⟩
    (DSState.mk false DownstreamState.INITIAL 0 8 2) 2 3
    (Or.inl (by decide)) (by decide)).2.2.1

/-- C3 as stated fails on the code: ngtcp2_conn_read_pkt returning
NGTCP2_ERR_RETRY is an error outside the claim enumerated cases, yet
on_read neither records Transport(code) in last_error_ (which is unset)
nor calls handle_error; it sends a Retry packet instead. -/
theorem on_read_retry_counterexample :
    ¬ ((on_read false true (OnReadState.mk LastErr.noneSet false)
          (some ReadErr.retry)).1.last_error =
        LastErr.transport ReadErr.retry ∧
      ReadAction.handleError ∈
        (on_read false true (OnReadState.mk LastErr.noneSet false)
          (some ReadErr.retry)).2.1) := by
  decide

/-- C3 amended: on_read maps each feed_packet outcome to a distinct
policy.  draining and drop return fatal without any close action;
required-transport-param, malformed-transport-param and transport-param
set last-error to Transport(code) even when one is already set, then call
handle_error; retry-requested sends a Retry (or, under graceful worker
shutdown, a CONNECTION_REFUSED close) and returns fatal without
handle_error; any remaining error sets Transport(code) only when no prior
last-error code exists and calls handle_error; on success the idle timer
is reset. -/
theorem on_read_error_dispositions (graceful decode_ok : Bool)
    (st : OnReadState) (code : Int) :
    on_read graceful decode_ok st none =
      (st, [ReadAction.resetIdleTimer], 0) ∧
    on_read graceful decode_ok st (some ReadErr.draining) = (st, [], -1) ∧
    on_read graceful decode_ok st (some ReadErr.dropConn) = (st, [], -1) ∧
    on_read graceful decode_ok st (some ReadErr.requiredTransportParam) =
      ({ st with last_error :=
          LastErr.transport ReadErr.requiredTransportParam },
       [ReadAction.handleError], -1) ∧
    on_read graceful decode_ok st (some ReadErr.malformedTransportParam) =
      ({ st with last_error :=
          LastErr.transport ReadErr.malformedTransportParam },
       [ReadAction.handleError], -1) ∧
    on_read graceful decode_ok st (some ReadErr.transportParam) =
      ({ st with last_error := LastErr.transport ReadErr.transportParam },
       [ReadAction.handleError], -1) ∧
    on_read graceful decode_ok st (some (ReadErr.other code)) =
      (if st.last_error.hasCode then st
       else { st with last_error := LastErr.transport (ReadErr.other code) },
       [ReadAction.handleError], -1) ∧
    on_read true true st (some ReadErr.retry) =
      (st, [ReadAction.sendConnectionClose], -1) ∧
    on_read false true st (some ReadErr.retry) =
      ({ st with retry_close := true }, [ReadAction.sendRetry], -1) := by
  refine ⟨rfl, rfl, rfl, rfl, rfl, rfl, rfl, rfl, rfl⟩

/-- C10: Http3Upstream::shutdown_stream_read always passes
NGHTTP3_H3_NO_ERROR to ngtcp2_conn_shutdown_stream_read, for every stream
id and every app_error_code argument. -/
theorem shutdown_stream_read_always_no_error
    (stream_id : Int) (app_error_code : Nat) (rv_fatal : Bool) :
    (shutdown_stream_read stream_id app_error_code rv_fatal).1.error_code =
      NGHTTP3_H3_NO_ERROR ∧
    (shutdown_stream_read stream_id app_error_code rv_fatal).1.stream_id =
      stream_id := by
  exact ⟨rfl, rfl⟩

/-- C8: sendmsg failing with EINVAL or EMSGSIZE lowers only the
per-connection max_udp_payload_size_ to NGTCP2_MAX_UDP_PAYLOAD_SIZE and
returns failure; any other failure changes no Upstream state; success
changes no state. -/
theorem send_packet_state_change (st : SendState) (rv : Int) :
    ((rv = -EINVAL ∨ rv = -EMSGSIZE) →
      send_packet st rv =
        ({ max_udp_payload_size := NGTCP2_MAX_UDP_PAYLOAD_SIZE }, -1)) ∧
    (rv ≠ 0 → rv ≠ -EINVAL → rv ≠ -EMSGSIZE →
      send_packet st rv = (st, -1)) ∧
    (rv = 0 → send_packet st rv = (st, 0)) := by
  refine ⟨?_, ?_, ?_⟩
  · intro h
    have hne : rv ≠ 0 := by
      rcases h with h | h <;> simp [h, EINVAL, EMSGSIZE]
    simp [send_packet, hne, h]
  · intro h0 h1 h2
    simp [send_packet, h0, h1, h2]
  · intro h
    simp [send_packet, h]

/-- Witness for C8 at rv = -EINVAL from a state with the default 1452
byte payload. -/
theorem send_packet_state_change_witness :
    ((-EINVAL : Int) = -EINVAL ∨ (-EINVAL : Int) = -EMSGSIZE) ∧
    send_packet { max_udp_payload_size := 1452 } (-EINVAL) =
      ({ max_udp_payload_size := NGTCP2_MAX_UDP_PAYLOAD_SIZE }, -1) := by
  refine ⟨Or.inl rfl, ?_⟩
  exact (send_packet_state_change { max_udp_payload_size := 1452 }
    (-EINVAL)).1 (Or.inl rfl)

/-- C4: once the worker is in graceful shutdown, any sequence of loop
iterations and timer events starting from the freshly constructed
Upstream submits the shutdown notice exactly once (start_graceful_shutdown
is a no-op while the shutdown timer is armed), arms the one-shot timer for
3 PTO, and at most one GOAWAY is ever submitted via nghttp3_conn_shutdown:
exactly one in any run in which the timer has fired (prep stopped, timer
no longer armed). -/
theorem graceful_shutdown_exactly_once (pto : Nat) (evs : List ShutEv)
    (t : ShutState) :
    (shut_run true pto initShutState evs).notices =
      (if evs.contains ShutEv.loopIter then 1 else 0) ∧
    (shut_run true pto initShutState evs).goaways ≤ 1 ∧
    ((shut_run true pto initShutState evs).timer_armed = true →
      (shut_run true pto initShutState evs).timer_after = 3 * pto ∧
      (shut_run true pto initShutState evs).goaways = 0) ∧
    ((shut_run true pto initShutState evs).prep_active = false →
      (shut_run true pto initShutState evs).timer_armed = false →
      (shut_run true pto initShutState evs).goaways = 1) ∧
    (t.timer_armed = true → start_graceful_shutdown pto t = t) := by
  have hinv0 : ShutInv pto initShutState := by
    simp [ShutInv, initShutState]
  have hinv := shut_run_inv pto evs initShutState hinv0
  have hnot := shut_run_notices pto evs initShutState hinv0
  refine ⟨?_, ?_, ?_, ?_, ?_⟩
  · simpa [initShutState] using hnot
  · by_cases hp : (shut_run true pto initShutState evs).prep_active
    · simp only [ShutInv, hp, if_true] at hinv
      omega
    · simp only [ShutInv, hp, if_false] at hinv
      rcases hinv.2 with ⟨-, hg, -⟩ | ⟨-, hg⟩ <;> omega
  · intro harm
    by_cases hp : (shut_run true pto initShutState evs).prep_active
    · simp only [ShutInv, hp, if_true] at hinv
      rw [hinv.2.1] at harm
      exact absurd harm (by simp)
    · simp only [ShutInv, hp, if_false] at hinv
      rcases hinv.2 with ⟨-, hg, hta⟩ | ⟨hf, -⟩
      · exact ⟨hta, hg⟩
      · rw [hf] at harm
        exact absurd harm (by simp)
  · intro hp harm
    by_cases hpa : (shut_run true pto initShutState evs).prep_active
    · rw [hpa] at hp
      exact absurd hp (by simp)
    · simp only [ShutInv, hpa, if_false] at hinv
      rcases hinv.2 with ⟨ht, -, -⟩ | ⟨-, hg⟩
      · rw [ht] at harm
        exact absurd harm (by simp)
      · exact hg
  · intro ht
    simp [start_graceful_shutdown, ht]

/-- Witness for C4 on a run with two loop iterations and one timer
firing: one notice, one GOAWAY. -/
theorem graceful_shutdown_exactly_once_witness :
    (shut_run true 7 initShutState
      [ShutEv.loopIter, ShutEv.loopIter, ShutEv.timerFire]).notices = 1 ∧
    (shut_run true 7 initShutState
      [ShutEv.loopIter, ShutEv.loopIter, ShutEv.timerFire]).goaways = 1 := by
  have h := graceful_shutdown_exactly_once 7
    [ShutEv.loopIter, ShutEv.loopIter, ShutEv.timerFire] initShutState
  exact ⟨h.1.trans (by decide), h.2.2.2.1 (by decide) (by decide)⟩

/-- C5: in the final-response section of on_downstream_header_complete, a
101 response to a WebSocket extended CONNECT is submitted with :status
200 and sec-websocket-accept stripped from the forwarded fields; every
other combination forwards the downstream status unchanged. -/
theorem websocket_101_rewritten (connect_proto : ConnectProto)
    (http_status : Nat) (headers : List String) :
    (connect_proto = ConnectProto.websocket → http_status = 101 →
      (on_downstream_header_complete_final connect_proto http_status
          headers).1 = 200 ∧
      "sec-websocket-accept" ∉
        (on_downstream_header_complete_final connect_proto http_status
          headers).2) ∧
    (¬ (connect_proto = ConnectProto.websocket ∧ http_status = 101) →
      (on_downstream_header_complete_final connect_proto http_status
          headers).1 = http_status) := by
  constructor
  · intro hcp hst
    constructor
    · simp [on_downstream_header_complete_final, hcp, hst]
    · simp [on_downstream_header_complete_final, hcp, hst,
        copy_headers_strip, List.mem_filter]
  · intro hne
    simp [on_downstream_header_complete_final, hne]

/-- Witness for C5: a 101 WebSocket response with a sec-websocket-accept
field, and a plain 404. -/
theorem websocket_101_rewritten_witness :
    (ConnectProto.websocket = ConnectProto.websocket ∧ (101 : Nat) = 101) ∧
    (on_downstream_header_complete_final ConnectProto.websocket 101
        ["sec-websocket-accept", "server"]).1 = 200 ∧
    ¬ (ConnectProto.noProto = ConnectProto.websocket ∧ (404 : Nat) = 101) ∧
    (on_downstream_header_complete_final ConnectProto.noProto 404
        ["server"]).1 = 404 := by
  refine ⟨⟨rfl, rfl⟩, ?_, by decide, ?_⟩
  · exact ((websocket_101_rewritten ConnectProto.websocket 101
      ["sec-websocket-accept", "server"]).1 rfl rfl).1
  · exact (websocket_101_rewritten ConnectProto.noProto 404
      ["server"]).2 (by decide)

/-- C6: when push_upload_data_chunk fails for a request-body chunk, the
stream is shut down with NGHTTP3_H3_INTERNAL_ERROR unless the response is
already complete, and in either case the chunk length is still credited to
the stream-level and connection-level flow-control windows via consume. -/
theorem recv_data_error_credits_flow_control (push_rv : Int)
    (response_state : DownstreamState) (stream_id : Int) (datalen : Nat)
    (hp : push_rv ≠ 0) :
    (response_state ≠ DownstreamState.MSG_COMPLETE →
      http_recv_data push_rv response_state stream_id datalen =
        ([DataAction.resetRtimer,
          DataAction.shutdownStream NGHTTP3_H3_INTERNAL_ERROR,
          DataAction.extendMaxStreamOffset stream_id datalen,
          DataAction.extendMaxOffset datalen], 0)) ∧
    (response_state = DownstreamState.MSG_COMPLETE →
      http_recv_data push_rv response_state stream_id datalen =
        ([DataAction.resetRtimer,
          DataAction.extendMaxStreamOffset stream_id datalen,
          DataAction.extendMaxOffset datalen], 0)) ∧
    DataAction.extendMaxStreamOffset stream_id datalen ∈
      (http_recv_data push_rv response_state stream_id datalen).1 ∧
    DataAction.extendMaxOffset datalen ∈
      (http_recv_data push_rv response_state stream_id datalen).1 := by
  refine ⟨?_, ?_, ?_, ?_⟩
  · intro hrs
    simp [http_recv_data, hp, hrs, consume]
  · intro hrs
    simp [http_recv_data, hp, hrs, consume]
  · by_cases hrs : response_state = DownstreamState.MSG_COMPLETE <;>
      simp [http_recv_data, hp, hrs, consume]
  · by_cases hrs : response_state = DownstreamState.MSG_COMPLETE <;>
      simp [http_recv_data, hp, hrs, consume]

/-- Witness for C6 at a failing push of a 3 byte chunk. -/
theorem recv_data_error_credits_flow_control_witness :
    (-1 : Int) ≠ 0 ∧
    DownstreamState.INITIAL ≠ DownstreamState.MSG_COMPLETE ∧
    http_recv_data (-1) DownstreamState.INITIAL 4 3 =
      ([DataAction.resetRtimer,
        DataAction.shutdownStream NGHTTP3_H3_INTERNAL_ERROR,
        DataAction.extendMaxStreamOffset 4 3,
        DataAction.extendMaxOffset 3], 0) := by
  refine ⟨by decide, by decide, ?_⟩
  exact (recv_data_error_credits_flow_control (-1)
    DownstreamState.INITIAL 4 3 (by decide)).1 (by decide)

/-- C7 as stated fails on the code: write_streams first clamps
get_send_quantum to the 64 KiB scratch buffer, so with a send quantum of
131072 bytes and an effective payload of 1452 the burst cap is
65536 / 1452 = 45, not 131072 / 1452 = 90 as the claim computes. -/
theorem write_streams_pktcnt_counterexample :
    (write_streams_setup 1452 65527 131072 CCAlgo.bbr).max_pktcnt ≠
      claimed_max_pktcnt 1452 65527 131072 CCAlgo.bbr := by
  decide

/-- C7 amended: the effective max UDP payload is the minimum of the
connection cap and the path maximum, and the burst cap equals
min(64 KiB, get_send_quantum) divided by that payload, further capped at
10 when the congestion controller is not BBR; the whole burst always fits
the 64 KiB scratch buffer. -/
theorem write_streams_pktcnt (conn_cap path_max send_quantum : Nat)
    (cc : CCAlgo) :
    (write_streams_setup conn_cap path_max send_quantum
        cc).max_udp_payload_size = min conn_cap path_max ∧
    (write_streams_setup conn_cap path_max send_quantum cc).max_pktcnt =
      (if cc = CCAlgo.bbr then
        min 65536 send_quantum / min conn_cap path_max
      else
        min (min 65536 send_quantum / min conn_cap path_max) 10) ∧
    (cc ≠ CCAlgo.bbr →
      (write_streams_setup conn_cap path_max send_quantum
        cc).max_pktcnt ≤ 10) ∧
    (write_streams_setup conn_cap path_max send_quantum cc).max_pktcnt *
      min conn_cap path_max ≤ 65536 := by
  refine ⟨rfl, ?_, ?_, ?_⟩
  · cases cc <;> simp [write_streams_setup]
  · intro hcc
    cases cc with
    | bbr => exact absurd rfl hcc
    | cubic => simpa [write_streams_setup] using Nat.min_le_right _ 10
    | reno => simpa [write_streams_setup] using Nat.min_le_right _ 10
  · have hbase : min 65536 send_quantum / min conn_cap path_max *
        min conn_cap path_max ≤ 65536 :=
      le_trans (Nat.div_mul_le_self _ _) (Nat.min_le_left _ _)
    cases cc with
    | bbr => simpa [write_streams_setup] using hbase
    | cubic =>
      refine le_trans (Nat.mul_le_mul_right _ ?_) hbase
      simpa [write_streams_setup] using Nat.min_le_left _ 10
    | reno =>
      refine le_trans (Nat.mul_le_mul_right _ ?_) hbase
      simpa [write_streams_setup] using Nat.min_le_left _ 10

/-- Witness for C7 amended: a non-BBR controller stays at or below 10
packets per burst. -/
theorem write_streams_pktcnt_witness :
    CCAlgo.reno ≠ CCAlgo.bbr ∧
    (write_streams_setup 1452 1200 131072 CCAlgo.reno).max_pktcnt ≤ 10 := by
  refine ⟨by decide, ?_⟩
  exact (write_streams_pktcnt 1452 1200 131072 CCAlgo.reno).2.2.1
    (by decide)

/-- C9 as stated fails on the code: when generate_token fails,
handshake_completed tolerates the failure and returns success with no
token submitted, so a successful return does not imply one submitted
token. -/
theorem handshake_token_counterexample :
    ¬ ((handshake_completed false true true 5 9).1 = 0 →
      (handshake_completed false true true 5 9).2.length = 1) := by
  decide

/-- C9 amended: handshake_completed submits at most one address-validation
token; when token generation succeeds and the callback returns success,
exactly the token generated from the peer address and the current
keying-material secret has been submitted; when generation fails the
callback still returns success with no token. -/
theorem handshake_completed_tokens (alpn_empty gen_fail submit_ok : Bool)
    (addr secret : Nat) :
    (handshake_completed alpn_empty gen_fail submit_ok addr
        secret).2.length ≤ 1 ∧
    ((handshake_completed alpn_empty gen_fail submit_ok addr secret).1 =
        0 → gen_fail = false →
      (handshake_completed alpn_empty gen_fail submit_ok addr secret).2 =
        [{ addr := addr, secret := secret }]) ∧
    (alpn_empty = false → gen_fail = true →
      handshake_completed alpn_empty gen_fail submit_ok addr secret =
        (0, [])) := by
  cases alpn_empty <;> cases gen_fail <;> cases submit_ok <;>
    simp [handshake_completed, generate_token]

/-- Witness for C9 amended: a successful handshake with working token
generation submits exactly the token built from peer address 3 and
secret 4. -/
theorem handshake_completed_tokens_witness :
    (handshake_completed false false true 3 4).1 = 0 ∧
    (handshake_completed false false true 3 4).2 =
      [{ addr := 3, secret := 4 }] := by
  refine ⟨by decide, ?_⟩
  exact (handshake_completed_tokens false false true 3 4).2.1 (by decide)
    rfl
